import Mathlib

/-!
Verification of the hospital research agent's core behaviours: the bounded
agentic tool-calling loop (`research` in `src/agents/research_agent.py`), its
tool executor and result shaping, and the hard-coded patient registry
(`src/data/patient_data.py`).  Python strings are modelled as lists of
characters, dictionaries with fixed key sets as structures, the
`{"error": True, ...}` sentinel dictionaries as explicit constructors, and the
external collaborators (the generation model and the three search agents) as
function-valued parameters of the agent.
-/

namespace HospitalResearch

/-- Python strings, modelled as lists of characters. -/
abbrev PyStr := List Char

/-- Literal helper: the characters of a Lean string literal, as a `PyStr`. -/
def str (s : String) : PyStr := s.data

/-- The ASCII whitespace characters removed by Python's `str.strip()`. -/
def isPySpace (c : Char) : Bool :=
  c == ' ' || c == '\t' || c == '\n' || c == '\r' || c == '\x0b' || c == '\x0c'

/-- Python `s.lower()` (the registry and queries here are basic latin). -/
def pyLower (s : PyStr) : PyStr := s.map Char.toLower

/-- Python `s.strip()`: drop leading and trailing whitespace. -/
def pyStrip (s : PyStr) : PyStr :=
  ((s.dropWhile isPySpace).reverse.dropWhile isPySpace).reverse

/-- One entry of a patient's `scheduled_medications_today` list
(`src/data/patient_data.py`). -/
structure Medication where
  medication : PyStr
  strength : PyStr
  scheduled_time : PyStr
  route : PyStr
  reason : PyStr
deriving DecidableEq

/-- One patient record of the `PATIENTS` registry (`src/data/patient_data.py`). -/
structure PatientRecord where
  name : PyStr
  age : Nat
  date_of_birth : PyStr
  medical_record_number : PyStr
  last_audit_at : PyStr
  scheduled_medications_today : List Medication
  medical_history : List PyStr
  allergies : List PyStr
  current_location : PyStr
  attending_physician : PyStr
deriving DecidableEq

/-- The record stored under the key `"juan de marco"`. -/
def juan_de_marco : PatientRecord where
  name := str "Juan de Marco"
  age := 65
  date_of_birth := str "1960-03-15"
  medical_record_number := str "MRN-789456"
  last_audit_at := str "2024-06-15"
  scheduled_medications_today := [
    ⟨str "Oxycodone", str "5mg", str "09:00 AM", str "Oral",
      str "Post-surgical pain management"⟩,
    ⟨str "Metformin", str "500mg", str "08:00 AM, 08:00 PM", str "Oral",
      str "Type 2 Diabetes"⟩,
    ⟨str "Lisinopril", str "10mg", str "08:00 AM", str "Oral",
      str "Hypertension"⟩]
  medical_history := [
    str "Type 2 Diabetes (diagnosed 2015)",
    str "Hypertension (diagnosed 2018)",
    str "Total knee replacement surgery (January 20, 2025)"]
  allergies := [str "Penicillin (rash)"]
  current_location := str "Room 302, Orthopedic Ward"
  attending_physician := str "Dr. Sarah Thompson"

/-- The record stored under the key `"maria silva"`. -/
def maria_silva : PatientRecord where
  name := str "Maria Silva"
  age := 45
  date_of_birth := str "1980-07-22"
  medical_record_number := str "MRN-456123"
  last_audit_at := str "2025-01-10"
  scheduled_medications_today := [
    ⟨str "Ibuprofen", str "400mg", str "10:00 AM, 06:00 PM", str "Oral",
      str "Chronic back pain"⟩,
    ⟨str "Omeprazole", str "20mg", str "08:00 AM", str "Oral", str "GERD"⟩]
  medical_history := [
    str "Chronic lower back pain (diagnosed 2019)",
    str "GERD (diagnosed 2020)"]
  allergies := [str "None"]
  current_location := str "Room 215, General Medicine"
  attending_physician := str "Dr. Michael Chen"

/-- The record stored under the key `"robert johnson"`. -/
def robert_johnson : PatientRecord where
  name := str "Robert Johnson"
  age := 72
  date_of_birth := str "1953-11-08"
  medical_record_number := str "MRN-321654"
  last_audit_at := str "2024-12-20"
  scheduled_medications_today := [
    ⟨str "Morphine Sulfate", str "10mg", str "08:00 AM, 02:00 PM, 08:00 PM",
      str "Injectable", str "Cancer pain management"⟩,
    ⟨str "Warfarin", str "5mg", str "06:00 PM", str "Oral",
      str "Atrial fibrillation"⟩]
  medical_history := [
    str "Stage IV lung cancer (diagnosed 2024)",
    str "Atrial fibrillation (diagnosed 2021)",
    str "History of deep vein thrombosis"]
  allergies := [str "Sulfa drugs (severe reaction)"]
  current_location := str "Room 410, Oncology"
  attending_physician := str "Dr. Jennifer Lee"

/-- The record stored under the key `"emily zhang"`. -/
def emily_zhang : PatientRecord where
  name := str "Emily Zhang"
  age := 28
  date_of_birth := str "1997-05-12"
  medical_record_number := str "MRN-892341"
  last_audit_at := str "2025-01-22"
  scheduled_medications_today := [
    ⟨str "Insulin Aspart", str "100 units/mL", str "07:30 AM, 12:30 PM, 06:30 PM",
      str "Subcutaneous", str "Type 1 Diabetes"⟩,
    ⟨str "Levothyroxine", str "75mcg", str "07:00 AM", str "Oral",
      str "Hypothyroidism"⟩]
  medical_history := [
    str "Type 1 Diabetes (diagnosed 2005)",
    str "Hypothyroidism (diagnosed 2020)",
    str "Appendectomy (2015)"]
  allergies := [str "Latex (contact dermatitis)"]
  current_location := str "Room 118, Endocrinology"
  attending_physician := str "Dr. Aisha Patel"

/-- The record stored under the key `"david martinez"`. -/
def david_martinez : PatientRecord where
  name := str "David Martinez"
  age := 58
  date_of_birth := str "1967-09-03"
  medical_record_number := str "MRN-567890"
  last_audit_at := str "2024-05-20"
  scheduled_medications_today := [
    ⟨str "Hydrocodone", str "10mg", str "08:00 AM, 08:00 PM", str "Oral",
      str "Chronic pain from spinal stenosis"⟩,
    ⟨str "Gabapentin", str "300mg", str "08:00 AM, 02:00 PM, 08:00 PM", str "Oral",
      str "Neuropathic pain"⟩,
    ⟨str "Atorvastatin", str "20mg", str "08:00 PM", str "Oral",
      str "High cholesterol"⟩]
  medical_history := [
    str "Lumbar spinal stenosis (diagnosed 2018)",
    str "Neuropathic pain (diagnosed 2019)",
    str "Hyperlipidemia (diagnosed 2016)",
    str "Hypertension (diagnosed 2014)"]
  allergies := [str "Codeine (nausea, vomiting)"]
  current_location := str "Room 225, Pain Management"
  attending_physician := str "Dr. Robert Kim"

/-- The record stored under the key `"sarah o'connor"`. -/
def sarah_oconnor : PatientRecord where
  name := str "Sarah O'Connor"
  age := 39
  date_of_birth := str "1986-11-28"
  medical_record_number := str "MRN-234567"
  last_audit_at := str "2025-01-15"
  scheduled_medications_today := [
    ⟨str "Sertraline", str "100mg", str "08:00 AM", str "Oral", str "Depression"⟩,
    ⟨str "Lorazepam", str "1mg", str "08:00 AM, 08:00 PM", str "Oral",
      str "Anxiety disorder"⟩,
    ⟨str "Amlodipine", str "5mg", str "08:00 AM", str "Oral", str "Hypertension"⟩]
  medical_history := [
    str "Major depressive disorder (diagnosed 2018)",
    str "Generalized anxiety disorder (diagnosed 2017)",
    str "Hypertension (diagnosed 2022)"]
  allergies := [str "None"]
  current_location := str "Room 305, Psychiatric Ward"
  attending_physician := str "Dr. Lisa Wang"

/-- The record stored under the key `"thomas anderson"`. -/
def thomas_anderson : PatientRecord where
  name := str "Thomas Anderson"
  age := 81
  date_of_birth := str "1944-02-14"
  medical_record_number := str "MRN-678901"
  last_audit_at := str "2024-07-30"
  scheduled_medications_today := [
    ⟨str "Fentanyl Patch", str "25mcg/hour", str "Change every 72 hours",
      str "Transdermal", str "Severe osteoarthritis pain"⟩,
    ⟨str "Donepezil", str "10mg", str "08:00 PM", str "Oral",
      str "Alzheimer's disease"⟩,
    ⟨str "Metoprolol", str "50mg", str "08:00 AM, 08:00 PM", str "Oral",
      str "Atrial fibrillation"⟩,
    ⟨str "Furosemide", str "40mg", str "08:00 AM", str "Oral",
      str "Congestive heart failure"⟩]
  medical_history := [
    str "Alzheimer's disease (diagnosed 2020)",
    str "Severe osteoarthritis (diagnosed 2015)",
    str "Atrial fibrillation (diagnosed 2018)",
    str "Congestive heart failure (diagnosed 2019)",
    str "Total hip replacement (2016)"]
  allergies := [str "Aspirin (gastrointestinal bleeding)"]
  current_location := str "Room 412, Geriatric Care"
  attending_physician := str "Dr. Margaret Sullivan"

/-- The record stored under the key `"lisa rodriguez"`. -/
def lisa_rodriguez : PatientRecord where
  name := str "Lisa Rodriguez"
  age := 52
  date_of_birth := str "1973-04-19"
  medical_record_number := str "MRN-345678"
  last_audit_at := str "2025-01-05"
  scheduled_medications_today := [
    ⟨str "Prednisone", str "20mg", str "08:00 AM", str "Oral",
      str "Rheumatoid arthritis"⟩,
    ⟨str "Methotrexate", str "15mg", str "Weekly - Sundays", str "Oral",
      str "Rheumatoid arthritis"⟩,
    ⟨str "Tramadol", str "50mg", str "As needed (PRN) for pain", str "Oral",
      str "Breakthrough pain"⟩]
  medical_history := [
    str "Rheumatoid arthritis (diagnosed 2010)",
    str "Osteoporosis (diagnosed 2021)",
    str "Hypertension (diagnosed 2019)"]
  allergies := [str "Iodine contrast (anaphylaxis)"]
  current_location := str "Room 208, Rheumatology"
  attending_physician := str "Dr. Carlos Mendez"

/-- The `PATIENTS` dictionary of `src/data/patient_data.py`: an insertion-ordered
mapping from normalized (lower-case) names to patient records. -/
def PATIENTS : List (PyStr × PatientRecord) := [
  (str "juan de marco", juan_de_marco),
  (str "maria silva", maria_silva),
  (str "robert johnson", robert_johnson),
  (str "emily zhang", emily_zhang),
  (str "david martinez", david_martinez),
  (str "sarah o'connor", sarah_oconnor),
  (str "thomas anderson", thomas_anderson),
  (str "lisa rodriguez", lisa_rodriguez)]

/-- One supporting citation of a search-backed tool result: an entry of the
`sources` list built by `_search_nursing_procedures` and its siblings. -/
structure Source where
  title : PyStr
  snippet : PyStr
deriving DecidableEq

/-- The dictionaries a tool execution returns into the loop
(`src/agents/research_agent.py`): a full patient record
(`get_patient_details` hit), a shaped search result (the `answer` /
`total_results` / `sources` / `query` dictionary of the three search tools),
or an `{"error": True, "message": ...}` sentinel dictionary. -/
inductive ToolResult where
  | patientRecord (record : PatientRecord)
  | searchResult (answer : PyStr) (total_results : Nat) (sources : List Source)
      (query : PyStr)
  | errorDict (message : PyStr)
deriving DecidableEq

/-- The function `get_patient_details` of `src/data/patient_data.py`: normalize
the name with `lower().strip()`, look it up in `PATIENTS`, and on a miss return
an error dictionary listing every registered patient's display name
(`', '.join([p['name'] for p in PATIENTS.values()])`). -/
def get_patient_details (patient_name : PyStr) : ToolResult :=
  let normalized_name := pyStrip (pyLower patient_name)
  match PATIENTS.find? (fun p => p.1 == normalized_name) with
  | some p => .patientRecord p.2
  | none =>
      let available_patients := List.intercalate (str ", ") (PATIENTS.map fun p => p.2.name)
      .errorDict (str "Patient '" ++ patient_name ++
        str "' not found in system. Available patients: " ++ available_patients)

/-- Python `repr` of a string: quoted with `'`, or with `"` when the text
itself holds a `'` (none of the repository's strings holds both). -/
def pyReprStr (s : PyStr) : PyStr :=
  if s.contains '\'' then '"' :: (s ++ ['"']) else '\'' :: (s ++ ['\''])

/-- Python `repr` of a list, given the reprs of its items. -/
def pyReprList (items : List PyStr) : PyStr :=
  '[' :: (List.intercalate (str ", ") items ++ [']'])

/-- Python `repr` of a dictionary with string keys, given each value's repr. -/
def pyReprDict (entries : List (PyStr × PyStr)) : PyStr :=
  str "\x7b" ++
    List.intercalate (str ", ") (entries.map fun e => pyReprStr e.1 ++ str ": " ++ e.2) ++
    str "\x7d"

/-- Python `repr` of one scheduled-medication dictionary. -/
def reprMedication (m : Medication) : PyStr :=
  pyReprDict [
    (str "medication", pyReprStr m.medication),
    (str "strength", pyReprStr m.strength),
    (str "scheduled_time", pyReprStr m.scheduled_time),
    (str "route", pyReprStr m.route),
    (str "reason", pyReprStr m.reason)]

/-- Python `repr` of a patient-record dictionary. -/
def reprPatientRecord (r : PatientRecord) : PyStr :=
  pyReprDict [
    (str "name", pyReprStr r.name),
    (str "age", str (toString r.age)),
    (str "date_of_birth", pyReprStr r.date_of_birth),
    (str "medical_record_number", pyReprStr r.medical_record_number),
    (str "last_audit_at", pyReprStr r.last_audit_at),
    (str "scheduled_medications_today",
      pyReprList (r.scheduled_medications_today.map reprMedication)),
    (str "medical_history", pyReprList (r.medical_history.map pyReprStr)),
    (str "allergies", pyReprList (r.allergies.map pyReprStr)),
    (str "current_location", pyReprStr r.current_location),
    (str "attending_physician", pyReprStr r.attending_physician)]

/-- Python `repr` of one `sources` entry. -/
def reprSource (s : Source) : PyStr :=
  pyReprDict [(str "title", pyReprStr s.title), (str "snippet", pyReprStr s.snippet)]

/-- Python `str(tool_result)`: the repr of the dictionary a tool execution
returned, as interpolated into `result_summary` at
`src/agents/research_agent.py:510`. -/
def strToolResult : ToolResult → PyStr
  | .patientRecord r => reprPatientRecord r
  | .searchResult answer total_results sources query =>
      pyReprDict [
        (str "answer", pyReprStr answer),
        (str "total_results", str (toString total_results)),
        (str "sources", pyReprList (sources.map reprSource)),
        (str "query", pyReprStr query)]
  | .errorDict message =>
      pyReprDict [(str "error", str "True"), (str "message", pyReprStr message)]

/-- The dictionary a specialized agent (`NursingAgent.search_protocols`,
`PharmacyAgent.search_inventory`, `HRAgent.search_policies`) hands back to the
research agent.  The Python code reads it with `.get` and a default; the
defaults are modelled as the field's value when the key is absent. -/
structure AgentSearchResult where
  error : Bool
  message : PyStr
  answer : PyStr
  total_results : Nat
  grounding_metadata : List Source
deriving DecidableEq

/-- The three external search collaborators the executor delegates to.  A call
either returns a result dictionary or raises (`Except.error` carries the
exception's message). -/
structure Collaborators where
  search_protocols : PyStr → Except PyStr AgentSearchResult
  search_inventory : PyStr → Except PyStr AgentSearchResult
  search_policies : PyStr → Except PyStr AgentSearchResult

/-- The method `_search_nursing_procedures` (`src/agents/research_agent.py:200`):
delegate to the nursing agent, wrap failures, and shape the result — sources
capped with `[:3]`, each snippet with `[:300]`. -/
def _search_nursing_procedures (c : Collaborators) (query : PyStr) : ToolResult :=
  match c.search_protocols query with
  | .error e => .errorDict (str "Search error: " ++ e)
  | .ok result =>
      if result.error then
        .errorDict (str "Nursing search failed: " ++ result.message)
      else
        .searchResult result.answer result.total_results
          ((result.grounding_metadata.take 3).map fun s => ⟨s.title, s.snippet.take 300⟩)
          query

/-- The method `_search_pharmacy_info` (`src/agents/research_agent.py:242`). -/
def _search_pharmacy_info (c : Collaborators) (query : PyStr) : ToolResult :=
  match c.search_inventory query with
  | .error e => .errorDict (str "Search error: " ++ e)
  | .ok result =>
      if result.error then
        .errorDict (str "Pharmacy search failed: " ++ result.message)
      else
        .searchResult result.answer result.total_results
          ((result.grounding_metadata.take 3).map fun s => ⟨s.title, s.snippet.take 300⟩)
          query

/-- The method `_search_hr_policies` (`src/agents/research_agent.py:284`). -/
def _search_hr_policies (c : Collaborators) (query : PyStr) : ToolResult :=
  match c.search_policies query with
  | .error e => .errorDict (str "Search error: " ++ e)
  | .ok result =>
      if result.error then
        .errorDict (str "HR search failed: " ++ result.message)
      else
        .searchResult result.answer result.total_results
          ((result.grounding_metadata.take 3).map fun s => ⟨s.title, s.snippet.take 300⟩)
          query

/-- Python `arguments.get(key, default)` on the function-call argument
dictionary. -/
def dictGet (args : List (PyStr × PyStr)) (key dflt : PyStr) : PyStr :=
  match args.find? (fun p => p.1 == key) with
  | some p => p.2
  | none => dflt

/-- The method `_execute_tool` (`src/agents/research_agent.py:161`): dispatch on
the tool name, falling through to the `Unknown function` error dictionary.  The
delegates are total here, so the surrounding `except` clause (which would wrap
an escaped exception as a `Tool execution error` dictionary) is unreachable. -/
def _execute_tool (c : Collaborators) (function_name : PyStr)
    (arguments : List (PyStr × PyStr)) : ToolResult :=
  if function_name = str "get_patient_details" then
    get_patient_details (dictGet arguments (str "patient_name") (str ""))
  else if function_name = str "search_nursing_procedures" then
    _search_nursing_procedures c (dictGet arguments (str "query") (str ""))
  else if function_name = str "search_pharmacy_info" then
    _search_pharmacy_info c (dictGet arguments (str "query") (str ""))
  else if function_name = str "search_hr_policies" then
    _search_hr_policies c (dictGet arguments (str "query") (str ""))
  else
    .errorDict (str "Unknown function: " ++ function_name)

/-- One part of a model response's content
(`response.candidates[0].content.parts`): either a requested function call or a
text part.  The Python code tests `part.function_call` and `part.text` for
truthiness; a text part may carry the empty string. -/
inductive Part where
  | functionCall (name : PyStr) (args : List (PyStr × PyStr))
  | text (content : PyStr)
deriving DecidableEq

/-- One element of the `contents` transcript the loop grows: the seed query
string, a model turn appended at `src/agents/research_agent.py:522`, or the
single `role="user"` turn of function responses appended at line 523. -/
inductive Content where
  | userText (content : PyStr)
  | modelTurn (parts : List Part)
  | toolResponses (responses : List (PyStr × ToolResult))
deriving DecidableEq

/-- One entry of `tool_call_history` (`src/agents/research_agent.py:506`). -/
structure ToolCallRecord where
  iteration : Nat
  function : PyStr
  arguments : List (PyStr × PyStr)
  result_summary : PyStr
deriving DecidableEq

/-- The three dictionary shapes `research` can return
(`src/agents/research_agent.py:543`, `562` and `575`): the final-answer
response (`error: False`), the max-iterations response (`error: False` with a
`warning` key), and the exception response (`error: True`). -/
inductive ResearchResponse where
  | success (answer answer_detailed answer_summary : PyStr)
      (iterations tool_calls : Nat) (tool_call_history : List ToolCallRecord)
      (query : PyStr)
  | incomplete (answer : PyStr) (iterations tool_calls : Nat)
      (tool_call_history : List ToolCallRecord) (query : PyStr) (warning : PyStr)
  | failure (message : PyStr) (query : PyStr)
deriving DecidableEq

/-- The `error` flag of the response dictionary. -/
def ResearchResponse.errorFlag : ResearchResponse → Bool
  | .failure _ _ => true
  | _ => false

/-- The `iterations` value of the response dictionary (absent — `0` here — on
the exception shape). -/
def ResearchResponse.iterations : ResearchResponse → Nat
  | .success _ _ _ its _ _ _ => its
  | .incomplete _ its _ _ _ _ => its
  | .failure _ _ => 0

/-- The `tool_calls` value of the response dictionary. -/
def ResearchResponse.tool_calls : ResearchResponse → Nat
  | .success _ _ _ _ tc _ _ => tc
  | .incomplete _ _ tc _ _ _ => tc
  | .failure _ _ => 0

/-- The `tool_call_history` list of the response dictionary. -/
def ResearchResponse.tool_call_history : ResearchResponse → List ToolCallRecord
  | .success _ _ _ _ _ h _ => h
  | .incomplete _ _ _ h _ _ => h
  | .failure _ _ => []

/-- The `warning` key of the response dictionary, when present. -/
def ResearchResponse.warning : ResearchResponse → Option PyStr
  | .incomplete _ _ _ _ _ w => some w
  | _ => none

/-- The `answer` key of the response dictionary, when present. -/
def ResearchResponse.answer : ResearchResponse → Option PyStr
  | .success a _ _ _ _ _ _ => some a
  | .incomplete a _ _ _ _ _ => some a
  | .failure _ _ => none

/-- Whether the response is the final-answer shape. -/
def ResearchResponse.isSuccess : ResearchResponse → Bool
  | .success _ _ _ _ _ _ _ => true
  | _ => false

/-- Outcome of the summarization model call inside `_generate_summary`: a
response whose first candidate carries text, a response with no candidates, or
a raised exception. -/
inductive SummOutcome where
  | ok (text : PyStr)
  | noCandidates
  | throws (message : PyStr)
deriving DecidableEq

/-- The research agent with its external collaborators: `max_iterations`, the
three search agents, the reasoning-model call (the `generate_content` at
`src/agents/research_agent.py:473`, as a function from the transcript to the
response's parts) and the summarization-model call (the `generate_content` at
line 359). -/
structure ResearchAgent where
  max_iterations : Nat
  collab : Collaborators
  model : List Content → List Part
  summarizer : PyStr → PyStr → SummOutcome

/-- The method `_generate_summary` (`src/agents/research_agent.py:326`): return
the stripped text of the first candidate, falling back to the first 200
characters of the detailed answer plus `"..."` when the call returns no
candidates or raises. -/
def _generate_summary (a : ResearchAgent) (detailed_answer query : PyStr) : PyStr :=
  match a.summarizer detailed_answer query with
  | .ok text => pyStrip text
  | .noCandidates => detailed_answer.take 200 ++ str "..."
  | .throws _ => detailed_answer.take 200 ++ str "..."

/-- The `result_summary` expression at `src/agents/research_agent.py:510`:
`str(tool_result)[:200] + "..." if len(str(tool_result)) > 200 else
str(tool_result)`. -/
def truncateResultSummary (s : PyStr) : PyStr :=
  if 200 < s.length then s.take 200 ++ str "..." else s

/-- Whether a part is a function call (`hasattr(part, 'function_call') and
part.function_call`). -/
def Part.isFunctionCallPart : Part → Bool
  | .functionCall _ _ => true
  | .text _ => false

/-- The function calls requested by one model turn, in part order
(the `for part in parts` loop at `src/agents/research_agent.py:494`). -/
def callRequests (parts : List Part) : List (PyStr × List (PyStr × PyStr)) :=
  parts.filterMap fun p =>
    match p with
    | .functionCall name args => some (name, args)
    | .text _ => none

/-- The `ToolCallRecord` appended for one executed call
(`src/agents/research_agent.py:506`). -/
def recordOfCall (c : Collaborators) (iteration : Nat)
    (call : PyStr × List (PyStr × PyStr)) : ToolCallRecord :=
  { iteration := iteration
    function := call.1
    arguments := call.2
    result_summary := truncateResultSummary (strToolResult (_execute_tool c call.1 call.2)) }

/-- The function-response part appended for one executed call
(`Part.from_function_response` at `src/agents/research_agent.py:514`). -/
def responseOfCall (c : Collaborators) (call : PyStr × List (PyStr × PyStr)) :
    PyStr × ToolResult :=
  (call.1, _execute_tool c call.1 call.2)

/-- What one pass of the `while` body decides (after the iteration counter was
incremented): execute tool calls and loop on with a grown transcript and trace,
return the final text answer, or — on an empty response — `break`. -/
inductive StepOutcome where
  | continueLoop (contents : List Content) (history : List ToolCallRecord)
  | finalAnswer (answer : PyStr)
  | emptyResponse

/-- One pass of the `while` body of `research`
(`src/agents/research_agent.py:468`–`558`), given the already-incremented
iteration counter.  An empty parts list takes the `break` at line 558; a
response with at least one function-call part executes every requested call and
appends the model turn plus a single function-response turn; otherwise a
non-empty first text part is the final answer, and an empty one falls through
to the next iteration with nothing appended. -/
def loopBody (a : ResearchAgent) (contents : List Content)
    (history : List ToolCallRecord) (iteration : Nat) : StepOutcome :=
  match a.model contents with
  | [] => .emptyResponse
  | first_part :: rest =>
      let parts := first_part :: rest
      if parts.any Part.isFunctionCallPart then
        let calls := callRequests parts
        .continueLoop
          (contents ++ [Content.modelTurn parts,
            Content.toolResponses (calls.map (responseOfCall a.collab))])
          (history ++ calls.map (recordOfCall a.collab iteration))
      else
        match first_part with
        | .text t => if t.isEmpty then .continueLoop contents history else .finalAnswer t
        | .functionCall _ _ => .continueLoop contents history

/-- The fixed answer of the max-iterations response
(`src/agents/research_agent.py:563`). -/
def incompleteAnswer : PyStr :=
  str "Research incomplete: Reached maximum number of iterations without finding a complete answer. Please try a more specific query."

/-- The warning value of the max-iterations response. -/
def maxIterationsWarning : PyStr := str "max_iterations_reached"

/-- The response built after the `while` loop
(`src/agents/research_agent.py:562`), reached by exhausting the bound or by the
`break` on an empty model response. -/
def mkIncomplete (query : PyStr) (iteration : Nat)
    (history : List ToolCallRecord) : ResearchResponse :=
  .incomplete incompleteAnswer iteration history.length history query maxIterationsWarning

/-- The `while iteration < self.max_iterations` loop of `research`, with the
remaining iteration budget `fuel = max_iterations - iteration` made explicit
so that the recursion is structural.  Each recursive step increments the
iteration counter once and invokes the model exactly once (inside `loopBody`),
so the final `iterations` value counts the model invocations performed. -/
def loopAux (a : ResearchAgent) (query : PyStr) :
    Nat → List Content → List ToolCallRecord → Nat → ResearchResponse
  | 0, _, history, iteration => mkIncomplete query iteration history
  | fuel + 1, contents, history, iteration =>
      let iteration' := iteration + 1
      match loopBody a contents history iteration' with
      | .continueLoop contents' history' => loopAux a query fuel contents' history' iteration'
      | .finalAnswer final_answer =>
          .success final_answer final_answer (_generate_summary a final_answer query)
            iteration' history.length history query
      | .emptyResponse => mkIncomplete query iteration' history

/-- The method `research` (`src/agents/research_agent.py:381`): seed the
transcript with the user query, run the bounded ReAct loop.  The embedded
model and collaborators return values rather than raise, so the surrounding
`except` clause (which would produce the `error: True` shape) is unreachable. -/
def research (a : ResearchAgent) (query : PyStr) : ResearchResponse :=
  loopAux a query a.max_iterations [Content.userText query] [] 0

/-- Search stub for concrete runs: every search succeeds with an empty result. -/
def stubSearch : PyStr → Except PyStr AgentSearchResult :=
  fun _ => .ok ⟨false, str "", str "", 0, []⟩

/-- Collaborator set built from `stubSearch`. -/
def stubCollab : Collaborators := ⟨stubSearch, stubSearch, stubSearch⟩

/-- A reasoning model that always requests one call to an unregistered tool. -/
def bogusModel : List Content → List Part :=
  fun _ => [Part.functionCall (str "bogus_tool") []]

/-- Concrete agent whose model always requests a bogus tool call
(`max_iterations = 2`). -/
def agentBogus : ResearchAgent :=
  ⟨2, stubCollab, bogusModel, fun _ _ => SummOutcome.noCandidates⟩

/-- The trace entry the first iteration of `agentBogus` produces. -/
def recBogus : ToolCallRecord :=
  ⟨1, str "bogus_tool", [],
    truncateResultSummary (strToolResult
      (ToolResult.errorDict (str "Unknown function: bogus_tool")))⟩

/-- Concrete agent whose model always returns an empty parts list. -/
def agentEmptyModel : ResearchAgent :=
  ⟨3, stubCollab, fun _ => [], fun _ _ => SummOutcome.noCandidates⟩

/-- Five grounding entries, more than the `[:3]` cap. -/
def fiveSources : List Source := [
  ⟨str "doc1", str "first snippet"⟩, ⟨str "doc2", str "second snippet"⟩,
  ⟨str "doc3", str "third snippet"⟩, ⟨str "doc4", str "fourth snippet"⟩,
  ⟨str "doc5", str "fifth snippet"⟩]

/-- A successful collaborator result with five grounding entries. -/
def resFive : AgentSearchResult :=
  ⟨false, str "", str "the answer", 5, fiveSources⟩

/-- Collaborator set whose every search returns `resFive`. -/
def collabFive : Collaborators :=
  ⟨fun _ => .ok resFive, fun _ => .ok resFive, fun _ => .ok resFive⟩

/-- A reasoning model that requests two tool calls in a single turn. -/
def twoCallModel : List Content → List Part :=
  fun _ => [
    Part.functionCall (str "search_hr_policies") [(str "query", str "vacation days")],
    Part.functionCall (str "bogus_tool") []]

/-- Concrete agent built on `twoCallModel`. -/
def agentTwoCalls : ResearchAgent :=
  ⟨3, stubCollab, twoCallModel, fun _ _ => SummOutcome.noCandidates⟩

/-- A 220-character detailed answer, longer than the 200-character fallback cut. -/
def longAnswer : PyStr :=
  str "Administer Oxycodone 5mg orally at 09:00 AM for post-surgical pain management, verify the controlled-substance audit that is overdue since 2024-06-15, and double-check the allergy list before giving any penicillin-class drug."

/-- Concrete agent whose model immediately returns `longAnswer` as final text and
whose summarization call returns no candidates. -/
def agentText : ResearchAgent :=
  ⟨5, stubCollab, fun _ => [Part.text longAnswer], fun _ _ => SummOutcome.noCandidates⟩

/-- The shape claim C8 asserts of a successful search-backed tool result `r`
built from the collaborator result `res`: the supporting citations are capped
at three — exactly three when more than three grounding entries exist — and
every snippet is at most 300 characters. -/
def CitationShaped (r : ToolResult) (res : AgentSearchResult) (query : PyStr) : Prop :=
  ∃ sources, r = ToolResult.searchResult res.answer res.total_results sources query ∧
    sources.length ≤ 3 ∧ (3 < res.grounding_metadata.length → sources.length = 3) ∧
    ∀ s ∈ sources, s.snippet.length ≤ 300

/-! Helper lemmas. -/

/-- Unfolding `Char.ofNat` at a valid codepoint. -/
theorem char_toNat_ofNat {n : Nat} (h : n.isValidChar) : (Char.ofNat n).toNat = n := by
  rw [Char.ofNat, dif_pos h]
  rfl

/-- Python's `lower` is idempotent on characters. -/
theorem char_toLower_idem (c : Char) : c.toLower.toLower = c.toLower := by
  unfold Char.toLower
  by_cases h : c.toNat ≥ 65 ∧ c.toNat ≤ 90
  · rw [if_pos h]
    have h32 : (Char.ofNat (c.toNat + 32)).toNat = c.toNat + 32 :=
      char_toNat_ofNat (Or.inl (by omega))
    rw [if_neg (by omega)]
  · rw [if_neg h, if_neg h]

/-- Lower-casing fixes whitespace characters. -/
theorem char_toLower_space {c : Char} (h : isPySpace c = true) : c.toLower = c := by
  simp only [isPySpace, Bool.or_eq_true, beq_iff_eq] at h
  rcases h with ((((h | h) | h) | h) | h) | h <;> subst h <;> decide

/-- Python's `lower` is idempotent on strings. -/
theorem pyLower_idem (s : PyStr) : pyLower (pyLower s) = pyLower s := by
  simp only [pyLower, List.map_map]
  exact List.map_congr_left fun c _ => char_toLower_idem c

/-- Dropping leading whitespace ignores a whitespace-only prefix. -/
theorem dropWhile_spaces_append (w s : PyStr) (hw : ∀ c ∈ w, isPySpace c = true) :
    (w ++ s).dropWhile isPySpace = s.dropWhile isPySpace := by
  induction w with
  | nil => rfl
  | cons c w ih =>
      simp only [List.cons_append, List.dropWhile_cons, hw c (by simp), if_true]
      exact ih fun c hc => hw c (by simp [hc])

/-- `strip` ignores whitespace-only padding on both sides. -/
theorem pyStrip_pad (w₁ w₂ s : PyStr) (h₁ : ∀ c ∈ w₁, isPySpace c = true)
    (h₂ : ∀ c ∈ w₂, isPySpace c = true) :
    pyStrip (w₁ ++ s ++ w₂) = pyStrip s := by
  unfold pyStrip
  rw [List.append_assoc, dropWhile_spaces_append w₁ (s ++ w₂) h₁, List.dropWhile_append]
  by_cases hs : (s.dropWhile isPySpace).isEmpty
  · rw [if_pos hs, List.dropWhile_eq_nil_iff.mpr h₂]
    rw [List.isEmpty_iff] at hs
    rw [hs]
  · rw [if_neg hs, List.reverse_append]
    rw [dropWhile_spaces_append w₂.reverse _ (fun c hc => h₂ c (List.mem_reverse.mp hc))]

/-- The normalized form of a whitespace-padded name is the normalized form of
the name. -/
theorem norm_pad (w₁ w₂ name : PyStr) (h₁ : ∀ c ∈ w₁, isPySpace c = true)
    (h₂ : ∀ c ∈ w₂, isPySpace c = true) :
    pyStrip (pyLower (w₁ ++ name ++ w₂)) = pyStrip (pyLower name) := by
  have hl : pyLower (w₁ ++ name ++ w₂) = w₁ ++ pyLower name ++ w₂ := by
    simp only [pyLower, List.map_append]
    rw [List.map_congr_left fun c hc => char_toLower_space (h₁ c hc),
      List.map_congr_left fun c hc => char_toLower_space (h₂ c hc)]
    simp only [List.map_id']
  rw [hl, pyStrip_pad w₁ w₂ _ h₁ h₂]

/-- Two names with the same normalized form give the same lookup result when
that form is registered (a hit returns the stored record, which depends only on
the normalized form). -/
theorem lookup_congr {n₁ n₂ : PyStr}
    (hnorm : pyStrip (pyLower n₁) = pyStrip (pyLower n₂))
    (hfound : (PATIENTS.find? (fun p => p.1 == pyStrip (pyLower n₁))).isSome = true) :
    get_patient_details n₁ = get_patient_details n₂ := by
  unfold get_patient_details
  rw [← hnorm]
  match hf : PATIENTS.find? (fun p => p.1 == pyStrip (pyLower n₁)) with
  | some p => simp only [hf]
  | none => rw [hf] at hfound; simp at hfound

/-- Some part is a function call exactly when the requested-call list is
non-empty. -/
theorem any_call_iff (parts : List Part) :
    parts.any Part.isFunctionCallPart = true ↔ callRequests parts ≠ [] := by
  induction parts with
  | nil => simp [callRequests]
  | cons p ps ih =>
      cases p with
      | functionCall n args => simp [callRequests, Part.isFunctionCallPart]
      | text t => simpa [callRequests, Part.isFunctionCallPart] using ih

/-- Every record built for one model turn carries the current iteration index. -/
theorem recordOfCall_iteration (c : Collaborators) (k : Nat)
    (calls : List (PyStr × List (PyStr × PyStr))) :
    ∀ rec ∈ calls.map (recordOfCall c k), rec.iteration = k := by
  intro rec hrec
  obtain ⟨call, _, rfl⟩ := List.mem_map.mp hrec
  rfl

/-- Exhaustive description of one pass of the loop body. -/
theorem loopBody_cases (a : ResearchAgent) (contents : List Content)
    (history : List ToolCallRecord) (iteration : Nat) :
    (a.model contents = [] ∧ loopBody a contents history iteration = .emptyResponse) ∨
    ((a.model contents).any Part.isFunctionCallPart = true ∧
      loopBody a contents history iteration = .continueLoop
        (contents ++ [Content.modelTurn (a.model contents),
          Content.toolResponses ((callRequests (a.model contents)).map (responseOfCall a.collab))])
        (history ++ (callRequests (a.model contents)).map (recordOfCall a.collab iteration))) ∨
    ((a.model contents).any Part.isFunctionCallPart = false ∧
      ∃ t, t.isEmpty = false ∧ loopBody a contents history iteration = .finalAnswer t) ∨
    ((a.model contents).any Part.isFunctionCallPart = false ∧
      loopBody a contents history iteration = .continueLoop contents history) := by
  rcases hm : a.model contents with _ | ⟨p, ps⟩
  · exact Or.inl ⟨rfl, by simp [loopBody, hm]⟩
  · by_cases hc : (p :: ps).any Part.isFunctionCallPart = true
    · refine Or.inr (Or.inl ⟨hc, ?_⟩)
      simp [loopBody, hm, hc]
    · cases p with
      | functionCall n args => simp [Part.isFunctionCallPart] at hc
      | text t =>
          by_cases ht : t.isEmpty
          · refine Or.inr (Or.inr (Or.inr ⟨by simpa using hc, ?_⟩))
            simp [loopBody, hm, hc, ht]
          · refine Or.inr (Or.inr (Or.inl ⟨by simpa using hc, t, by simpa using ht, ?_⟩))
            simp [loopBody, hm, hc, ht]



/-- The final iteration counter lies between the entry counter and the entry
counter plus the remaining budget. -/
theorem loopAux_iterations_le (a : ResearchAgent) (query : PyStr) :
    ∀ fuel contents history iteration,
      iteration ≤ (loopAux a query fuel contents history iteration).iterations ∧
      (loopAux a query fuel contents history iteration).iterations ≤ iteration + fuel := by
  intro fuel
  induction fuel with
  | zero =>
      intro contents history iteration
      simp [loopAux, mkIncomplete, ResearchResponse.iterations]
  | succ fuel ih =>
      intro contents history iteration
      simp only [loopAux]
      cases hb : loopBody a contents history (iteration + 1) with
      | continueLoop c' h' =>
          dsimp only
          have := ih c' h' (iteration + 1)
          constructor <;> omega
      | finalAnswer t =>
          dsimp only [ResearchResponse.iterations]
          omega
      | emptyResponse =>
          dsimp only [mkIncomplete, ResearchResponse.iterations]
          omega

/-- Every completed run is either the final-answer shape (detailed answer equal
to the answer, summary produced by `_generate_summary`, `tool_calls` equal to
the trace length) or the max-iterations shape. -/
theorem loopAux_shape (a : ResearchAgent) (query : PyStr) :
    ∀ fuel contents history iteration,
      (∃ f its hist, loopAux a query fuel contents history iteration =
        ResearchResponse.success f f (_generate_summary a f query) its hist.length hist query) ∨
      (∃ its hist, loopAux a query fuel contents history iteration = mkIncomplete query its hist) := by
  intro fuel
  induction fuel with
  | zero =>
      intro contents history iteration
      exact Or.inr ⟨iteration, history, rfl⟩
  | succ fuel ih =>
      intro contents history iteration
      simp only [loopAux]
      cases hb : loopBody a contents history (iteration + 1) with
      | continueLoop c' h' => dsimp only; exact ih c' h' (iteration + 1)
      | finalAnswer t => dsimp only; exact Or.inl ⟨t, iteration + 1, history, rfl⟩
      | emptyResponse => dsimp only; exact Or.inr ⟨iteration + 1, history, rfl⟩



/-- A list of equal indices is non-decreasing. -/
theorem chain_le_of_all_eq : ∀ (xs : List Nat) (k : Nat), (∀ x ∈ xs, x = k) →
    List.Chain' (fun m n => m ≤ n) xs
  | [], _, _ => List.chain'_nil
  | [_], _, _ => List.chain'_singleton _
  | x :: y :: xs, k, h => by
      rw [List.chain'_cons]
      refine ⟨?_, chain_le_of_all_eq (y :: xs) k fun z hz => h z (by simp [hz])⟩
      rw [h x (by simp), h y (by simp)]

/-- Appending records of the current iteration keeps the trace non-decreasing. -/
theorem chain_le_append_const (hist newRecs : List ToolCallRecord) (k : Nat)
    (h1 : ∀ rec ∈ hist, rec.iteration ≤ k)
    (h2 : List.Chain' (fun m n => m ≤ n) (hist.map ToolCallRecord.iteration))
    (h3 : ∀ rec ∈ newRecs, rec.iteration = k) :
    List.Chain' (fun m n => m ≤ n) ((hist ++ newRecs).map ToolCallRecord.iteration) := by
  rw [List.map_append, List.chain'_append]
  refine ⟨h2, ?_, ?_⟩
  · refine chain_le_of_all_eq _ k fun x hx => ?_
    obtain ⟨rec, hrec, rfl⟩ := List.mem_map.mp hx
    exact h3 rec hrec
  · intro x hx y hy
    obtain ⟨rec, hrec, rfl⟩ := List.mem_map.mp (List.mem_of_mem_getLast? hx)
    obtain ⟨rec', hrec', rfl⟩ := List.mem_map.mp (List.mem_of_mem_head? hy)
    rw [h3 rec' hrec']
    exact h1 rec hrec

/-- Loop invariant for claim C2: the trace is consistent with the iteration
counter at every return point. -/
theorem loopAux_trace_inv (a : ResearchAgent) (query : PyStr) :
    ∀ fuel contents history iteration,
      (∀ rec ∈ history, rec.iteration ≤ iteration) →
      List.Chain' (fun m n => m ≤ n) (history.map ToolCallRecord.iteration) →
      (loopAux a query fuel contents history iteration).tool_calls =
        (loopAux a query fuel contents history iteration).tool_call_history.length ∧
      (∀ rec ∈ (loopAux a query fuel contents history iteration).tool_call_history,
        rec.iteration ≤ (loopAux a query fuel contents history iteration).iterations) ∧
      List.Chain' (fun m n => m ≤ n)
        (((loopAux a query fuel contents history iteration).tool_call_history).map
          ToolCallRecord.iteration) := by
  intro fuel
  induction fuel with
  | zero =>
      intro contents history iteration hle hchain
      exact ⟨rfl, hle, hchain⟩
  | succ fuel ih =>
      intro contents history iteration hle hchain
      have hle' : ∀ rec ∈ history, rec.iteration ≤ iteration + 1 :=
        fun rec hrec => Nat.le_succ_of_le (hle rec hrec)
      rcases loopBody_cases a contents history (iteration + 1) with
        ⟨hm, hb⟩ | ⟨hc, hb⟩ | ⟨hnc, t, ht, hb⟩ | ⟨hnc, hb⟩
      · simp only [loopAux, hb]
        exact ⟨rfl, hle', hchain⟩
      · simp only [loopAux, hb]
        refine ih _ _ (iteration + 1) ?_ ?_
        · intro rec hrec
          rcases List.mem_append.mp hrec with h | h
          · exact hle' rec h
          · exact Nat.le_of_eq (recordOfCall_iteration a.collab (iteration + 1) _ rec h)
        · exact chain_le_append_const history _ (iteration + 1) hle' hchain
            (recordOfCall_iteration a.collab (iteration + 1) _)
      · simp only [loopAux, hb]
        exact ⟨rfl, hle', hchain⟩
      · simp only [loopAux, hb]
        exact ih _ _ (iteration + 1) hle' hchain



/-- The truncated result preview is at most 203 characters. -/
theorem truncateResultSummary_length (s : PyStr) :
    (truncateResultSummary s).length ≤ 203 := by
  unfold truncateResultSummary
  split
  · simp only [List.length_append, List.length_take, str]
    simp
  · omega

/-- Loop invariant for claim C10: every trace entry's preview is the truncated
rendering of the result of re-executing its own call. -/
theorem loopAux_result_summary (a : ResearchAgent) (query : PyStr) :
    ∀ fuel contents history iteration,
      (∀ rec ∈ history, rec.result_summary =
        truncateResultSummary (strToolResult (_execute_tool a.collab rec.function rec.arguments))) →
      ∀ rec ∈ (loopAux a query fuel contents history iteration).tool_call_history,
        rec.result_summary =
          truncateResultSummary (strToolResult (_execute_tool a.collab rec.function rec.arguments)) := by
  intro fuel
  induction fuel with
  | zero => intro contents history iteration hh; exact hh
  | succ fuel ih =>
      intro contents history iteration hh
      rcases loopBody_cases a contents history (iteration + 1) with
        ⟨hm, hb⟩ | ⟨hc, hb⟩ | ⟨hnc, t, ht, hb⟩ | ⟨hnc, hb⟩
      · simp only [loopAux, hb]
        exact hh
      · simp only [loopAux, hb]
        refine ih _ _ (iteration + 1) ?_
        intro rec hrec
        rcases List.mem_append.mp hrec with h | h
        · exact hh rec h
        · obtain ⟨call, _, rfl⟩ := List.mem_map.mp h
          rfl
      · simp only [loopAux, hb]
        exact hh
      · simp only [loopAux, hb]
        exact ih _ _ (iteration + 1) hh

/-! Claim theorems. -/

/-- A shaped search result built by the common `[:3]` / `[:300]` expression
satisfies `CitationShaped`. -/
theorem shaped_of_take (res : AgentSearchResult) (query : PyStr) :
    CitationShaped
      (ToolResult.searchResult res.answer res.total_results
        ((res.grounding_metadata.take 3).map fun s => ⟨s.title, s.snippet.take 300⟩) query)
      res query := by
  refine ⟨_, rfl, ?_, ?_, ?_⟩
  · simp [List.length_take]
  · intro h
    simp [List.length_take]
    omega
  · intro s hs
    obtain ⟨t, _, rfl⟩ := List.mem_map.mp hs
    simp [List.length_take]

/-- C8: for every successful result of the three search-backed tools, the
returned citations are capped at three — exactly three when the collaborator
result has more than three grounding entries — and every snippet is at most
300 characters long. -/
theorem search_citation_truncation (c : Collaborators) (query : PyStr) :
    (∀ res, c.search_protocols query = .ok res → res.error = false →
      CitationShaped (_search_nursing_procedures c query) res query) ∧
    (∀ res, c.search_inventory query = .ok res → res.error = false →
      CitationShaped (_search_pharmacy_info c query) res query) ∧
    (∀ res, c.search_policies query = .ok res → res.error = false →
      CitationShaped (_search_hr_policies c query) res query) := by
  refine ⟨fun res hok herr => ?_, fun res hok herr => ?_, fun res hok herr => ?_⟩
  · have : _search_nursing_procedures c query = ToolResult.searchResult res.answer
        res.total_results
        ((res.grounding_metadata.take 3).map fun s => ⟨s.title, s.snippet.take 300⟩) query := by
      simp [_search_nursing_procedures, hok, herr]
    rw [this]
    exact shaped_of_take res query
  · have : _search_pharmacy_info c query = ToolResult.searchResult res.answer
        res.total_results
        ((res.grounding_metadata.take 3).map fun s => ⟨s.title, s.snippet.take 300⟩) query := by
      simp [_search_pharmacy_info, hok, herr]
    rw [this]
    exact shaped_of_take res query
  · have : _search_hr_policies c query = ToolResult.searchResult res.answer
        res.total_results
        ((res.grounding_metadata.take 3).map fun s => ⟨s.title, s.snippet.take 300⟩) query := by
      simp [_search_hr_policies, hok, herr]
    rw [this]
    exact shaped_of_take res query

/-- C8 witness: the nursing search over a collaborator result with five
grounding entries is citation-shaped. -/
theorem search_citation_truncation_witness :
    CitationShaped (_search_nursing_procedures collabFive (str "oxycodone protocol"))
      resFive (str "oxycodone protocol") :=
  (search_citation_truncation collabFive (str "oxycodone protocol")).1 resFive rfl rfl



/-- C3: an unregistered tool name gives the structured
`Unknown function: <name>` failure dictionary, and a loop turn requesting such
a call continues to the next iteration (appending the turn, the single
function-response turn, and one trace record) instead of aborting. -/
theorem unknown_tool_nonfatal (c : Collaborators) (name : PyStr)
    (args : List (PyStr × PyStr))
    (h1 : name ≠ str "get_patient_details") (h2 : name ≠ str "search_nursing_procedures")
    (h3 : name ≠ str "search_pharmacy_info") (h4 : name ≠ str "search_hr_policies") :
    _execute_tool c name args = ToolResult.errorDict (str "Unknown function: " ++ name) ∧
    ∀ (a : ResearchAgent) (contents : List Content) (history : List ToolCallRecord)
      (iteration : Nat), a.collab = c → a.model contents = [Part.functionCall name args] →
      loopBody a contents history iteration = StepOutcome.continueLoop
        (contents ++ [Content.modelTurn [Part.functionCall name args],
          Content.toolResponses [(name, ToolResult.errorDict (str "Unknown function: " ++ name))]])
        (history ++ [{ iteration := iteration, function := name, arguments := args,
                       result_summary := truncateResultSummary (strToolResult
                         (ToolResult.errorDict (str "Unknown function: " ++ name))) }]) := by
  have hexec : _execute_tool c name args =
      ToolResult.errorDict (str "Unknown function: " ++ name) := by
    simp only [_execute_tool, if_neg h1, if_neg h2, if_neg h3, if_neg h4]
  refine ⟨hexec, ?_⟩
  intro a contents history iteration hcol hm
  subst hcol
  simp only [loopBody, hm]
  simp [callRequests, Part.isFunctionCallPart, recordOfCall, responseOfCall, hexec]

/-- C3 witness: the executor result and the loop continuation at the concrete
unregistered name `bogus_tool`. -/
theorem unknown_tool_nonfatal_witness :
    _execute_tool stubCollab (str "bogus_tool") [] =
      ToolResult.errorDict (str "Unknown function: " ++ str "bogus_tool") ∧
    loopBody agentBogus [Content.userText (str "q")] [] 1 = StepOutcome.continueLoop
      ([Content.userText (str "q")] ++ [Content.modelTurn [Part.functionCall (str "bogus_tool") []],
        Content.toolResponses [(str "bogus_tool",
          ToolResult.errorDict (str "Unknown function: " ++ str "bogus_tool"))]])
      ([] ++ [{ iteration := 1, function := str "bogus_tool", arguments := [],
                result_summary := truncateResultSummary (strToolResult
                  (ToolResult.errorDict (str "Unknown function: " ++ str "bogus_tool"))) }]) :=
  ⟨(unknown_tool_nonfatal stubCollab (str "bogus_tool") [] (by decide) (by decide)
      (by decide) (by decide)).1,
   (unknown_tool_nonfatal stubCollab (str "bogus_tool") [] (by decide) (by decide)
      (by decide) (by decide)).2 agentBogus [Content.userText (str "q")] [] 1 rfl rfl⟩

/-- C4 counterexample: with a model returning an empty parts list, the run is
cut short, but the caller receives the success-shaped max-iterations response
(`error: False`, `warning: "max_iterations_reached"`) — not a hard-failure
processing error as the claim states. -/
theorem empty_response_counterexample :
    research agentEmptyModel (str "q") =
      ResearchResponse.incomplete incompleteAnswer 1 0 [] (str "q") maxIterationsWarning ∧
    (research agentEmptyModel (str "q")).errorFlag = false ∧
    (research agentEmptyModel (str "q")).warning = some maxIterationsWarning := by
  refine ⟨by decide, by decide, by decide⟩

/-- C4 (amended): an empty model response aborts the current loop run
immediately — but the response returned is the same success-shaped
`"Research incomplete"` dictionary as on iteration exhaustion, with
`warning = "max_iterations_reached"` and `error = False`, not a generic
processing error. -/
theorem empty_model_response_aborts (a : ResearchAgent) (query : PyStr)
    (fuel iteration : Nat) (contents : List Content) (history : List ToolCallRecord)
    (hempty : a.model contents = []) (hfuel : 0 < fuel) :
    loopAux a query fuel contents history iteration =
      ResearchResponse.incomplete incompleteAnswer (iteration + 1) history.length history
        query maxIterationsWarning := by
  cases fuel with
  | zero => omega
  | succ fuel =>
      simp only [loopAux, loopBody, hempty]
      rfl

/-- C4 witness: the amended statement at the concrete empty-response agent. -/
theorem empty_model_response_aborts_witness :
    loopAux agentEmptyModel (str "q") 3 [Content.userText (str "q")] [] 0 =
      ResearchResponse.incomplete incompleteAnswer 1 0 [] (str "q") maxIterationsWarning :=
  empty_model_response_aborts agentEmptyModel (str "q") 3 0 [Content.userText (str "q")] []
    rfl (by decide)



/-- C1: for every reasoning-model behaviour, the loop performs at most
`max_iterations` model invocations (the returned `iterations` counter is
incremented exactly once per invocation) and returns with `error = False`;
whenever no final text answer was produced, the response is the fixed
`"Research incomplete"` answer with the accumulated trace and
`warning = "max_iterations_reached"`. -/
theorem research_bounded_termination (a : ResearchAgent) (query : PyStr) :
    (research a query).iterations ≤ a.max_iterations ∧
    (research a query).errorFlag = false ∧
    ((research a query).isSuccess = false →
      ∃ its hist, research a query =
        ResearchResponse.incomplete incompleteAnswer its hist.length hist query
          maxIterationsWarning) := by
  have hr : research a query = loopAux a query a.max_iterations [Content.userText query] [] 0 :=
    rfl
  refine ⟨?_, ?_, ?_⟩
  · have h := (loopAux_iterations_le a query a.max_iterations [Content.userText query] [] 0).2
    rw [hr]
    omega
  · rcases loopAux_shape a query a.max_iterations [Content.userText query] [] 0 with
      ⟨f, its, hist, heq⟩ | ⟨its, hist, heq⟩ <;>
      rw [hr, heq] <;> rfl
  · intro hns
    rcases loopAux_shape a query a.max_iterations [Content.userText query] [] 0 with
      ⟨f, its, hist, heq⟩ | ⟨its, hist, heq⟩
    · rw [hr, heq] at hns
      simp [ResearchResponse.isSuccess] at hns
    · exact ⟨its, hist, by rw [hr, heq]; rfl⟩

/-- C1 witness: the mock model that always requests a bogus tool call stops at
the bound with the max-iterations response. -/
theorem research_bounded_termination_witness :
    (research agentBogus (str "q")).iterations ≤ agentBogus.max_iterations ∧
    (research agentBogus (str "q")).errorFlag = false ∧
    (∃ its hist, research agentBogus (str "q") =
      ResearchResponse.incomplete incompleteAnswer its hist.length hist (str "q")
        maxIterationsWarning) :=
  ⟨(research_bounded_termination agentBogus (str "q")).1,
   (research_bounded_termination agentBogus (str "q")).2.1,
   (research_bounded_termination agentBogus (str "q")).2.2 (by decide)⟩

/-- C2: for every completed run, `tool_calls` equals the trace length, every
trace entry's iteration index is at most the returned `iterations` value, and
the iteration indices are non-decreasing in trace order. -/
theorem research_trace_consistency (a : ResearchAgent) (query : PyStr) :
    (research a query).tool_calls = (research a query).tool_call_history.length ∧
    (∀ rec ∈ (research a query).tool_call_history,
      rec.iteration ≤ (research a query).iterations) ∧
    List.Chain' (fun m n => m ≤ n)
      (((research a query).tool_call_history).map ToolCallRecord.iteration) :=
  loopAux_trace_inv a query a.max_iterations [Content.userText query] [] 0
    (by simp) (by simp)

/-- C5: a model turn with `N ≥ 1` requested tool calls makes the loop execute
all `N` calls, append exactly `N` trace records all carrying the current
iteration index, and append the model turn plus a single response turn holding
all `N` results. -/
theorem loop_executes_all_calls (a : ResearchAgent) (contents : List Content)
    (history : List ToolCallRecord) (iteration : Nat)
    (h : 1 ≤ (callRequests (a.model contents)).length) :
    loopBody a contents history iteration = StepOutcome.continueLoop
      (contents ++ [Content.modelTurn (a.model contents),
        Content.toolResponses ((callRequests (a.model contents)).map (responseOfCall a.collab))])
      (history ++ (callRequests (a.model contents)).map (recordOfCall a.collab iteration)) ∧
    ((callRequests (a.model contents)).map (responseOfCall a.collab)).length =
      (callRequests (a.model contents)).length ∧
    ((callRequests (a.model contents)).map (recordOfCall a.collab iteration)).length =
      (callRequests (a.model contents)).length ∧
    ∀ rec ∈ (callRequests (a.model contents)).map (recordOfCall a.collab iteration),
      rec.iteration = iteration := by
  have hne : callRequests (a.model contents) ≠ [] := by
    intro h0
    rw [h0] at h
    simp at h
  have hany : (a.model contents).any Part.isFunctionCallPart = true :=
    (any_call_iff (a.model contents)).mpr hne
  rcases loopBody_cases a contents history iteration with
    ⟨hm, hb⟩ | ⟨hc, hb⟩ | ⟨hnc, t, ht, hb⟩ | ⟨hnc, hb⟩
  · rw [hm] at hany
    simp at hany
  · exact ⟨hb, List.length_map _ _, List.length_map _ _,
      recordOfCall_iteration a.collab iteration _⟩
  · rw [hany] at hnc
    simp at hnc
  · rw [hany] at hnc
    simp at hnc

/-- C5 witness: a concrete turn with two requested calls. -/
theorem loop_executes_all_calls_witness :
    loopBody agentTwoCalls [Content.userText (str "q")] [] 1 = StepOutcome.continueLoop
      ([Content.userText (str "q")] ++
        [Content.modelTurn (agentTwoCalls.model [Content.userText (str "q")]),
          Content.toolResponses ((callRequests (agentTwoCalls.model [Content.userText (str "q")])).map
            (responseOfCall agentTwoCalls.collab))])
      ([] ++ (callRequests (agentTwoCalls.model [Content.userText (str "q")])).map
        (recordOfCall agentTwoCalls.collab 1)) ∧
    ((callRequests (agentTwoCalls.model [Content.userText (str "q")])).map
      (responseOfCall agentTwoCalls.collab)).length =
      (callRequests (agentTwoCalls.model [Content.userText (str "q")])).length ∧
    ((callRequests (agentTwoCalls.model [Content.userText (str "q")])).map
      (recordOfCall agentTwoCalls.collab 1)).length =
      (callRequests (agentTwoCalls.model [Content.userText (str "q")])).length :=
  ⟨(loop_executes_all_calls agentTwoCalls [Content.userText (str "q")] [] 1 (by decide)).1,
   (loop_executes_all_calls agentTwoCalls [Content.userText (str "q")] [] 1 (by decide)).2.1,
   (loop_executes_all_calls agentTwoCalls [Content.userText (str "q")] [] 1 (by decide)).2.2.1⟩



/-- C9: when the summarization call raises or returns no candidates, the
summary is the first 200 characters of the detailed answer plus `"..."`, and a
successful research run still returns the success shape (`error = False`) with
`answer` and `answer_detailed` both equal to the final model text. -/
theorem summarizer_fallback (a : ResearchAgent) (query : PyStr)
    (hfail : ∀ d q, a.summarizer d q = SummOutcome.noCandidates ∨
      ∃ e, a.summarizer d q = SummOutcome.throws e) :
    (∀ d q, _generate_summary a d q = d.take 200 ++ str "...") ∧
    (research a query).errorFlag = false ∧
    ((research a query).isSuccess = true →
      ∃ f its hist, research a query =
        ResearchResponse.success f f (f.take 200 ++ str "...") its hist.length hist query) := by
  have hr : research a query = loopAux a query a.max_iterations [Content.userText query] [] 0 :=
    rfl
  have hsum : ∀ d q, _generate_summary a d q = d.take 200 ++ str "..." := by
    intro d q
    unfold _generate_summary
    rcases hfail d q with h | ⟨e, h⟩ <;> rw [h]
  refine ⟨hsum, ?_, ?_⟩
  · rcases loopAux_shape a query a.max_iterations [Content.userText query] [] 0 with
      ⟨f, its, hist, heq⟩ | ⟨its, hist, heq⟩ <;> rw [hr, heq] <;> rfl
  · intro hs
    rcases loopAux_shape a query a.max_iterations [Content.userText query] [] 0 with
      ⟨f, its, hist, heq⟩ | ⟨its, hist, heq⟩
    · rw [hsum f query] at heq
      exact ⟨f, its, hist, by rw [hr, heq]⟩
    · rw [hr, heq] at hs
      simp [mkIncomplete, ResearchResponse.isSuccess] at hs

/-- C9 witness: the fallback summary at a concrete failing summarizer. -/
theorem summarizer_fallback_witness :
    _generate_summary agentText longAnswer (str "q") = longAnswer.take 200 ++ str "..." :=
  (summarizer_fallback agentText (str "q") (fun _ _ => Or.inl rfl)).1 longAnswer (str "q")

/-- C10: every trace entry's `result_summary` is the string form of the tool
result, truncated to 200 characters plus `"..."` when longer than 200; hence it
is at most 203 characters long. -/
theorem trace_result_summary_truncation (a : ResearchAgent) (query : PyStr) :
    ∀ rec ∈ (research a query).tool_call_history,
      rec.result_summary = truncateResultSummary
        (strToolResult (_execute_tool a.collab rec.function rec.arguments)) ∧
      rec.result_summary.length ≤ 203 := by
  intro rec hrec
  have h := loopAux_result_summary a query a.max_iterations [Content.userText query] [] 0
    (by simp) rec hrec
  refine ⟨h, ?_⟩
  rw [h]
  exact truncateResultSummary_length _

/-- C10 witness: the first trace entry of the bogus-tool run. -/
theorem trace_result_summary_truncation_witness :
    recBogus.result_summary = truncateResultSummary
      (strToolResult (_execute_tool agentBogus.collab recBogus.function recBogus.arguments)) ∧
    recBogus.result_summary.length ≤ 203 :=
  trace_result_summary_truncation agentBogus (str "q") recBogus (by decide)

/-- C6 counterexample: lookup is not invariant in the letter case of the name
for every string — on a miss the error message interpolates the raw argument,
so the upper- and lower-case misses differ. -/
theorem patient_lookup_invariance_counterexample :
    get_patient_details (str "Nonexistent Person") ≠
      get_patient_details (str "nonexistent person") := by
  decide

/-- C6 (amended): patient lookup is invariant in letter case and surrounding
whitespace for every name whose normalized form is registered (on a miss the
error message embeds the raw argument, so unregistered spellings differ); in
particular the three Juan de Marco spellings all return his record. -/
theorem patient_lookup_case_insensitive (name w₁ w₂ : PyStr)
    (hw₁ : ∀ c ∈ w₁, isPySpace c = true) (hw₂ : ∀ c ∈ w₂, isPySpace c = true)
    (hreg : (PATIENTS.find? (fun p => p.1 == pyStrip (pyLower name))).isSome = true) :
    get_patient_details (pyLower name) = get_patient_details name ∧
    get_patient_details (w₁ ++ name ++ w₂) = get_patient_details name ∧
    get_patient_details (str "JUAN DE MARCO") = get_patient_details (str "juan de marco") ∧
    get_patient_details (str " Juan de Marco ") = get_patient_details (str "juan de marco") ∧
    get_patient_details (str "juan de marco") = ToolResult.patientRecord juan_de_marco := by
  refine ⟨?_, ?_, by decide, by decide, by decide⟩
  · exact lookup_congr (by rw [pyLower_idem]) (by rw [pyLower_idem]; exact hreg)
  · exact lookup_congr (norm_pad w₁ w₂ name hw₁ hw₂)
      (by rw [norm_pad w₁ w₂ name hw₁ hw₂]; exact hreg)

/-- C6 witness: the amended statement at `"Juan de Marco"` with one space of
padding on each side. -/
theorem patient_lookup_case_insensitive_witness :
    get_patient_details (pyLower (str "Juan de Marco")) = get_patient_details (str "Juan de Marco") ∧
    get_patient_details (str " " ++ str "Juan de Marco" ++ str " ") =
      get_patient_details (str "Juan de Marco") ∧
    get_patient_details (str "JUAN DE MARCO") = get_patient_details (str "juan de marco") ∧
    get_patient_details (str " Juan de Marco ") = get_patient_details (str "juan de marco") ∧
    get_patient_details (str "juan de marco") = ToolResult.patientRecord juan_de_marco :=
  patient_lookup_case_insensitive (str "Juan de Marco") (str " ") (str " ")
    (by decide) (by decide) (by decide)

/-- C7: a lookup whose normalized name is not registered fails with a message
that lists every registered patient's display name. -/
theorem patient_not_found_lists_alternatives (name : PyStr)
    (h : ∀ p ∈ PATIENTS, p.1 ≠ pyStrip (pyLower name)) :
    get_patient_details name = ToolResult.errorDict
      (str "Patient '" ++ name ++ str "' not found in system. Available patients: " ++
        List.intercalate (str ", ") (PATIENTS.map fun p => p.2.name)) ∧
    ∀ p ∈ PATIENTS, p.2.name <:+:
      (str "Patient '" ++ name ++ str "' not found in system. Available patients: " ++
        List.intercalate (str ", ") (PATIENTS.map fun p => p.2.name)) := by
  have hnone : PATIENTS.find? (fun p => p.1 == pyStrip (pyLower name)) = none :=
    List.find?_eq_none.mpr fun p hp => by simpa using h p hp
  constructor
  · simp only [get_patient_details, hnone]
  · intro p hp
    have hJ : p.2.name <:+: List.intercalate (str ", ") (PATIENTS.map fun p => p.2.name) := by
      set_option maxRecDepth 4000 in
      fin_cases hp <;> decide
    exact hJ.trans
      ⟨str "Patient '" ++ name ++ str "' not found in system. Available patients: ", [], by simp⟩

/-- C7 witness: the not-found message at a concrete unregistered name. -/
theorem patient_not_found_lists_alternatives_witness :
    get_patient_details (str "Nonexistent Person") = ToolResult.errorDict
      (str "Patient '" ++ str "Nonexistent Person" ++
        str "' not found in system. Available patients: " ++
        List.intercalate (str ", ") (PATIENTS.map fun p => p.2.name)) :=
  (patient_not_found_lists_alternatives (str "Nonexistent Person") (by decide)).1

end HospitalResearch
